import Mathlib

/-!
Shallow embedding of the openFDA MCP server's core layer (query builders,
identifier normalization, result formatters, transport error handling and
envelope assembly), translated from the TypeScript sources in
`src/index.ts`, `src/handlers/drug-handlers.ts` and `src/utils/api-client.ts`
(the latter also carries the device handlers and the shared type file).
Tool arguments and upstream records are untyped JSON-like values, so they are
modelled by a `JsValue` type together with the JavaScript coercions the code
relies on (truthiness, optional chaining, string coercion, `||` defaulting).
-/

namespace OpenFDA

/-- A JavaScript runtime value as it flows through the handlers: `undefined`,
`null`, booleans, numbers (the code only meets integral ones), strings,
arrays and plain objects (ordered field lists, no duplicate keys in the
objects the code builds). -/
inductive JsValue where
  | undefined : JsValue
  | null : JsValue
  | bool : Bool → JsValue
  | num : Int → JsValue
  | str : String → JsValue
  | arr : List JsValue → JsValue
  | obj : List (String × JsValue) → JsValue

/-- First-match lookup of a key in an object's field list (the objects the
code constructs carry no duplicate keys). Missing key gives `undefined`. -/
def lookupField : List (String × JsValue) → String → JsValue
  | [], _ => .undefined
  | (k, x) :: rest, key => if k = key then x else lookupField rest key

/-- Property access `v?.key` (and plain `v.key` on the object-typed values the
code applies it to): an object looks the key up, anything else yields
`undefined` (optional chaining short-circuits on `undefined`/`null`; other
non-objects have no such own property). -/
def JsValue.get (v : JsValue) (key : String) : JsValue :=
  match v with
  | .obj fields => lookupField fields key
  | _ => .undefined

/-- Whether an object's field list contains a key (JS `in`, used for spread
override semantics). -/
def hasKeyList (fields : List (String × JsValue)) (key : String) : Bool :=
  fields.any (fun kv => kv.1 == key)

/-- JavaScript falsiness: `undefined`, `null`, `false`, `0` and `""` are
falsy; every other value (including empty arrays and objects) is truthy. -/
def JsValue.isFalsy : JsValue → Bool
  | .undefined => true
  | .null => true
  | .bool b => !b
  | .num n => n == 0
  | .str s => s == ""
  | .arr _ => false
  | .obj _ => false

/-- JavaScript truthiness. -/
def JsValue.isTruthy (v : JsValue) : Bool := !v.isFalsy

/-- `Array.prototype.join(sep)` on a list of strings (also used for the
builders' `join(' AND ')` and `join(' OR ')`). -/
def joinSep (sep : String) : List String → String
  | [] => ""
  | [x] => x
  | x :: xs => x ++ sep ++ joinSep sep xs

/-- `String.prototype.trim()`, restricted to the ASCII whitespace the inputs
can carry, implemented on the character list. -/
def jsTrim (s : String) : String :=
  String.mk (((s.data.dropWhile Char.isWhitespace).reverse.dropWhile
    Char.isWhitespace).reverse)

/-- `String.prototype.includes(c)` for a single character. -/
def jsContainsChar (s : String) (c : Char) : Bool :=
  s.data.contains c

/-- `String.prototype.slice(0, n)` / `substring(0, n)` (character-level). -/
def strTake (s : String) (n : Nat) : String :=
  String.mk (s.data.take n)

/-- `String.prototype.slice(n)` (character-level). -/
def strDrop (s : String) (n : Nat) : String :=
  String.mk (s.data.drop n)

mutual

/-- JavaScript string coercion (template-literal interpolation). Arrays join
their elements with commas, with `undefined`/`null` elements contributing the
empty string; plain objects stringify to `[object Object]`. -/
def jsToString : JsValue → String
  | .undefined => "undefined"
  | .null => "null"
  | .bool true => "true"
  | .bool false => "false"
  | .num n => toString n
  | .str s => s
  | .arr xs => jsToStringList xs
  | .obj _ => "[object Object]"

/-- Comma-joined coercion of array elements (JS `Array.prototype.toString`). -/
def jsToStringList : List JsValue → String
  | [] => ""
  | [x] => jsToStringElem x
  | x :: xs => jsToStringElem x ++ "," ++ jsToStringList xs

/-- One array element under `Array.prototype.toString`: `undefined` and
`null` become the empty string. -/
def jsToStringElem : JsValue → String
  | .undefined => ""
  | .null => ""
  | x => jsToString x

end

/-- `v?.[0]`: first element of an array, `undefined` otherwise (the code only
indexes arrays or short-circuited `undefined`). -/
def idx0 : JsValue → JsValue
  | .arr (x :: _) => x
  | _ => .undefined

/-- `v?.slice(0, n)` on the array-or-`undefined` values the formatters apply
it to. -/
def jsSlice (n : Nat) : JsValue → JsValue
  | .arr xs => .arr (xs.take n)
  | _ => .undefined

/-- `v?.map(f)` on the array-or-`undefined` values the formatters apply it
to. -/
def jsMap (f : JsValue → JsValue) : JsValue → JsValue
  | .arr xs => .arr (xs.map f)
  | _ => .undefined

/-- JavaScript `v || d`. -/
def jsOr (v d : JsValue) : JsValue := if v.isTruthy then v else d

/-- `v === '1'`. -/
def jsIsStrOne : JsValue → Bool
  | .str s => s == "1"
  | _ => false

/-- `v === true`. -/
def jsIsTrue : JsValue → Bool
  | .bool b => b
  | _ => false

/-- Object spread `{ ...base, ...override }` for two object values: `base`'s
keys keep their position but take `override`'s value on collision, then
`override`'s remaining keys follow. Spreading a non-object contributes no
string-keyed own properties. -/
def jsSpread (base override : JsValue) : JsValue :=
  match base, override with
  | .obj bs, .obj os =>
      .obj (bs.map (fun kv => if hasKeyList os kv.1 then (kv.1, lookupField os kv.1) else kv) ++
            os.filter (fun kv => !hasKeyList bs kv.1))
  | .obj bs, _ => .obj bs
  | b, _ => b

/-- One quoted field clause `field:"value"` as interpolated by the query
builders. -/
def clause (field : String) (v : JsValue) : String :=
  field ++ ":\"" ++ jsToString v ++ "\""

/-! ## Date-range clause builders -/

/-- `buildDateQuery` from `drug-handlers.ts`: `null` when neither bound is
truthy, a closed range when both are, else the half-open form for whichever
bound is present. -/
def buildDateQuery (field : String) (dateFrom dateTo : JsValue) : Option String :=
  if !dateFrom.isTruthy && !dateTo.isTruthy then none
  else if dateFrom.isTruthy && dateTo.isTruthy then
    some (field ++ ":[" ++ jsToString dateFrom ++ " TO " ++ jsToString dateTo ++ "]")
  else if dateFrom.isTruthy then some (field ++ ":[" ++ jsToString dateFrom ++ " TO *]")
  else if dateTo.isTruthy then some (field ++ ":[* TO " ++ jsToString dateTo ++ "]")
  else none

/-- `buildDateRangeQuery` from the device-handlers module: same shape but the
empty string stands for "no clause". -/
def buildDateRangeQuery (field : String) (dateFrom dateTo : JsValue) : String :=
  if !dateFrom.isTruthy && !dateTo.isTruthy then ""
  else if dateFrom.isTruthy && dateTo.isTruthy then
    field ++ ":[" ++ jsToString dateFrom ++ " TO " ++ jsToString dateTo ++ "]"
  else if dateFrom.isTruthy then field ++ ":[" ++ jsToString dateFrom ++ " TO *]"
  else field ++ ":[* TO " ++ jsToString dateTo ++ "]"

/-! ## Drug query builders (`drug-handlers.ts`)

Each builder pushes one clause per truthy argument field in source order and
returns `queryParts.join(' AND ') || '*'`; the `||` makes the empty join fall
back to the `'*'` wildcard. -/

/-- Optional clause contribution: a singleton list when the field is truthy. -/
def clauseIf (args : JsValue) (key field : String) : List String :=
  if (args.get key).isTruthy then [clause field (args.get key)] else []

/-- Date-range contribution guarded by `if (args.date_from || args.date_to)`
and by the builder returning a non-null clause. -/
def dateClauseIf (args : JsValue) (fromKey toKey field : String) : List String :=
  if (args.get fromKey).isTruthy || (args.get toKey).isTruthy then
    match buildDateQuery field (args.get fromKey) (args.get toKey) with
    | some dq => [dq]
    | none => []
  else []

/-- `queryParts.join(' AND ') || '*'`. -/
def joinOrStar (parts : List String) : String :=
  let joined := joinSep " AND " parts
  if joined = "" then "*" else joined

/-- `buildDrugAdverseEventQuery`. -/
def buildDrugAdverseEventQuery (args : JsValue) : String :=
  joinOrStar
    (clauseIf args "drug_name" "patient.drug.medicinalproduct" ++
     clauseIf args "brand_name" "patient.drug.openfda.brand_name" ++
     clauseIf args "generic_name" "patient.drug.openfda.generic_name" ++
     clauseIf args "reaction" "patient.reaction.reactionmeddrapt" ++
     clauseIf args "manufacturer" "patient.drug.openfda.manufacturer_name" ++
     (if jsIsTrue (args.get "serious_only") then ["serious:1"] else []) ++
     clauseIf args "patient_sex" "patient.patientsex" ++
     clauseIf args "country" "occurcountry" ++
     dateClauseIf args "date_from" "date_to" "receivedate")

/-- `buildDrugLabelQuery`. -/
def buildDrugLabelQuery (args : JsValue) : String :=
  joinOrStar
    (clauseIf args "brand_name" "openfda.brand_name" ++
     clauseIf args "generic_name" "openfda.generic_name" ++
     clauseIf args "manufacturer" "openfda.manufacturer_name" ++
     clauseIf args "indication" "indications_and_usage" ++
     clauseIf args "active_ingredient" "active_ingredient" ++
     clauseIf args "route" "openfda.route" ++
     clauseIf args "product_type" "openfda.product_type")

/-- `buildDrugNDCQuery`. -/
def buildDrugNDCQuery (args : JsValue) : String :=
  joinOrStar
    (clauseIf args "product_ndc" "product_ndc" ++
     clauseIf args "package_ndc" "packaging.package_ndc" ++
     clauseIf args "proprietary_name" "proprietary_name" ++
     clauseIf args "nonproprietary_name" "nonproprietary_name" ++
     clauseIf args "labeler_name" "labeler_name" ++
     clauseIf args "dosage_form" "dosage_form" ++
     clauseIf args "route" "route" ++
     clauseIf args "substance_name" "substance_name")

/-- `buildDrugRecallQuery`. -/
def buildDrugRecallQuery (args : JsValue) : String :=
  joinOrStar
    (clauseIf args "product_description" "product_description" ++
     clauseIf args "recalling_firm" "recalling_firm" ++
     clauseIf args "classification" "classification" ++
     clauseIf args "status" "status" ++
     clauseIf args "state" "state" ++
     clauseIf args "country" "country" ++
     clauseIf args "reason_for_recall" "reason_for_recall" ++
     dateClauseIf args "date_from" "date_to" "recall_initiation_date")

/-- `buildDrugsFDAQuery`. -/
def buildDrugsFDAQuery (args : JsValue) : String :=
  joinOrStar
    (clauseIf args "sponsor_name" "sponsor_name" ++
     clauseIf args "application_number" "application_number" ++
     clauseIf args "brand_name" "products.brand_name" ++
     clauseIf args "generic_name" "openfda.generic_name" ++
     clauseIf args "active_ingredient" "products.active_ingredients.name" ++
     clauseIf args "dosage_form" "products.dosage_form" ++
     clauseIf args "marketing_status" "products.marketing_status")

/-- `buildDrugShortageQuery`. -/
def buildDrugShortageQuery (args : JsValue) : String :=
  joinOrStar
    (clauseIf args "product_name" "product_name" ++
     clauseIf args "generic_name" "generic_name" ++
     clauseIf args "brand_name" "brand_name" ++
     clauseIf args "active_ingredient" "active_ingredients.name" ++
     clauseIf args "shortage_status" "shortage_status" ++
     clauseIf args "shortage_designation" "shortage_designation" ++
     clauseIf args "dosage_form" "dosage_form")

/-! ## Device query builders (device-handlers module)

Same push-per-truthy-field scheme, but the empty clause list yields the empty
string: `queryParts.length > 0 ? queryParts.join(' AND ') : ''`. -/

/-- `queryParts.length > 0 ? queryParts.join(' AND ') : ''`. -/
def joinOrEmpty (parts : List String) : String :=
  if parts.length > 0 then joinSep " AND " parts else ""

/-- Device date-range contribution: guarded by
`if (args.x_from || args.x_to)` and `if (dateQuery)` (truthy string). -/
def deviceDateClauseIf (args : JsValue) (fromKey toKey field : String) : List String :=
  if (args.get fromKey).isTruthy || (args.get toKey).isTruthy then
    let dq := buildDateRangeQuery field (args.get fromKey) (args.get toKey)
    if dq = "" then [] else [dq]
  else []

/-- `buildDevice510KQuery`. -/
def buildDevice510KQuery (args : JsValue) : String :=
  joinOrEmpty
    (clauseIf args "device_name" "device_name" ++
     clauseIf args "applicant" "applicant" ++
     clauseIf args "contact" "contact" ++
     clauseIf args "product_code" "product_code" ++
     clauseIf args "clearance_type" "clearance_type" ++
     deviceDateClauseIf args "decision_date_from" "decision_date_to" "decision_date")

/-- `buildDeviceClassificationQuery`. -/
def buildDeviceClassificationQuery (args : JsValue) : String :=
  joinOrEmpty
    (clauseIf args "device_name" "device_name" ++
     clauseIf args "device_class" "device_class" ++
     clauseIf args "medical_specialty" "medical_specialty" ++
     clauseIf args "product_code" "product_code" ++
     clauseIf args "regulation_number" "regulation_number")

/-- `buildDeviceAdverseEventQuery`; the `device_name` contribution is the
unparenthesized pair `device.brand_name:"X" OR device.generic_name:"X"`. -/
def buildDeviceAdverseEventQuery (args : JsValue) : String :=
  joinOrEmpty
    ((if (args.get "device_name").isTruthy then
        [clause "device.brand_name" (args.get "device_name") ++ " OR " ++
         clause "device.generic_name" (args.get "device_name")]
      else []) ++
     clauseIf args "brand_name" "device.brand_name" ++
     clauseIf args "manufacturer" "device.manufacturer_d_name" ++
     clauseIf args "product_code" "device.openfda.fei_number" ++
     clauseIf args "event_type" "event_type" ++
     clauseIf args "patient_sex" "patient.sex" ++
     deviceDateClauseIf args "date_from" "date_to" "date_received")

/-- `buildDeviceRecallQuery`. -/
def buildDeviceRecallQuery (args : JsValue) : String :=
  joinOrEmpty
    (clauseIf args "product_description" "product_description" ++
     clauseIf args "recalling_firm" "recalling_firm" ++
     clauseIf args "classification" "classification" ++
     clauseIf args "status" "status" ++
     clauseIf args "product_code" "openfda.device_class" ++
     deviceDateClauseIf args "date_from" "date_to" "recall_initiation_date")

/-! ## Identifier normalizer and `buildSearch` (`index.ts`) -/

/-- `input.replace(/[^\d]/g, '')`: keep only the decimal digits. -/
def stripNonDigits (s : String) : String :=
  String.mk (s.data.filter Char.isDigit)

/-- Re-segmentation `slice(0,5)-slice(5,9)-slice(9)` applied to a 10- or
11-digit run. -/
def resegment (clean : String) : String :=
  strTake clean 5 ++ "-" ++ strTake (strDrop clean 5) 4 ++ "-" ++ strDrop clean 9

/-- Append-if-new step of `new Set(...)` insertion-order deduplication. -/
def pushUnique (acc : List String) (x : String) : List String :=
  if x ∈ acc then acc else acc ++ [x]

/-- `[...new Set(formats)]`: first occurrences, original order. -/
def dedupPreserve (xs : List String) : List String :=
  xs.foldl pushUnique []

/-- `normalizeNDC` from `index.ts`: falsy input gives `[]`; otherwise the
trimmed input leads, a separator-bearing input with a ≥ 9-digit run adds the
bare digit run, a separator-free input with exactly 10 or 11 digits adds the
5-4-(1|2) hyphenated form; the list is deduplicated and capped at 3. -/
def normalizeNDC (ndcInput : String) : List String :=
  if ndcInput = "" then []
  else
    let input := jsTrim ndcInput
    let withDerived :=
      if jsContainsChar input '-' then
        let cleanNDC := stripNonDigits input
        if cleanNDC.length ≥ 9 then [input, cleanNDC] else [input]
      else
        let cleanNDC := stripNonDigits input
        if cleanNDC.length = 10 then [input, resegment cleanNDC]
        else if cleanNDC.length = 11 then [input, resegment cleanNDC]
        else [input]
    (dedupPreserve withDerived).take 3

/-- JS truthiness of an optional string parameter (`undefined` and `""` are
falsy). -/
def strTruthy : Option String → Bool
  | none => false
  | some s => !(s == "")

/-- Value of an optional string parameter in a branch where it is truthy. -/
def strVal : Option String → String
  | none => ""
  | some s => s

/-- The brand/generic/substance OR-group `buildSearch` builds for a drug
name. -/
def drugOrGroup (drug : String) (exact : Bool) : String :=
  "(" ++ joinSep " OR "
    ((["openfda.brand_name", "openfda.generic_name", "openfda.substance_name"]).map
      (fun field =>
        if exact then field ++ ".exact:\"" ++ drug ++ "\""
        else field ++ ":\"" ++ drug ++ "\"")) ++ ")"

/-- The non-NDC path of `buildSearch`: AND-join the supplied filters, or the
`"*:*"` wildcard when none is supplied. -/
def buildSearchNonNDC (drug manufacturer dosageForm route : Option String)
    (exact : Bool) : String :=
  let queryParts :=
    (if strTruthy drug then [drugOrGroup (strVal drug) exact] else []) ++
    (if strTruthy manufacturer then ["openfda.manufacturer_name:\"" ++ strVal manufacturer ++ "\""] else []) ++
    (if strTruthy dosageForm then ["openfda.dosage_form:\"" ++ strVal dosageForm ++ "\""] else []) ++
    (if strTruthy route then ["openfda.route:\"" ++ strVal route ++ "\""] else [])
  if queryParts.length > 0 then joinSep " AND " queryParts else "*:*"

/-- `buildSearch` from `index.ts`: a truthy `ndc` takes priority — its
normalized candidates are OR-joined over `openfda.product_ndc` and, when no
drug name and no additional filter is supplied, that group alone is returned;
otherwise the group is AND-joined with the rest. Without a truthy `ndc` (or,
vacuously, with no normalized candidate) the general path runs. -/
def buildSearch (drug manufacturer dosageForm route ndc : Option String)
    (exact : Bool) : String :=
  if strTruthy ndc then
    let ndcFormats := normalizeNDC (strVal ndc)
    if ndcFormats.length > 0 then
      let ndcQuery := "(" ++ joinSep " OR "
        (ndcFormats.map (fun format => "openfda.product_ndc:\"" ++ format ++ "\"")) ++ ")"
      let additionalFilters :=
        (if strTruthy manufacturer then ["openfda.manufacturer_name:\"" ++ strVal manufacturer ++ "\""] else []) ++
        (if strTruthy dosageForm then ["openfda.dosage_form:\"" ++ strVal dosageForm ++ "\""] else []) ++
        (if strTruthy route then ["openfda.route:\"" ++ strVal route ++ "\""] else [])
      if additionalFilters.isEmpty && !strTruthy drug then ndcQuery
      else
        joinSep " AND "
          ([ndcQuery] ++ (if strTruthy drug then [drugOrGroup (strVal drug) exact] else []) ++
           additionalFilters)
    else buildSearchNonNDC drug manufacturer dosageForm route exact
  else buildSearchNonNDC drug manufacturer dosageForm route exact

/-- The per-tool limit expression of the seven drug-label getter tools:
`Math.max(1, Math.min(limit || 3, 10))`, where the zod schema has already
substituted the default `3` for an unset limit (modelled by `none`). -/
def getterLimitParam (limit : Option Int) : Int :=
  let l : Int :=
    match limit with
    | none => 3
    | some v => v
  max 1 (min (if l = 0 then 3 else l) 10)

/-! ## Axios transport client (`api-client.ts`) -/

/-- The discriminated shapes of an axios failure as `handleAPIError` reads
them: a received HTTP response (status, optional upstream
`data.error.message`, axios' own message), a request that got no response, or
a setup failure. -/
inductive AxiosError where
  | response (status : Nat) (dataMessage : Option String) (message : String)
  | request (message : String)
  | setup (message : String)

/-- `handleAPIError`: the message of the `Error` it unconditionally throws
(its TS return type is `never`). -/
def handleAPIError (hasAPIKey : Bool) : AxiosError → String
  | .response status dataMessage message =>
    if status = 400 then "Bad Request: " ++ dataMessage.getD "Invalid search parameters"
    else if status = 404 then "No results found for the given search criteria"
    else if status = 429 then
      "Rate limit exceeded. " ++
        (if hasAPIKey then "API key rate limits" else "Consider using an API key for higher limits")
    else if status = 500 then "FDA API server error. Please try again later"
    else if status = 503 then "FDA API service temporarily unavailable"
    else "FDA API error (" ++ toString status ++ "): " ++ dataMessage.getD message
  | .request _ => "Network error: Unable to connect to FDA API"
  | .setup message => "Request error: " ++ message

/-- Upstream metadata and result list as the handlers read them
(`meta.results.total` and `results`, the latter possibly absent). -/
structure FDAResp where
  total : Int
  results : Option (List JsValue)

/-- Outcome of `FDAAPIClient.get`: the axios response data on success, or the
message thrown by the `handleAPIError` interceptor on failure. -/
def clientGetOutcome (hasAPIKey : Bool)
    (axiosOutcome : Except AxiosError FDAResp) : Except String FDAResp :=
  match axiosOutcome with
  | .ok r => .ok r
  | .error e => .error (handleAPIError hasAPIKey e)

/-- Request parameters as assembled by `FDAAPIClient.buildSearchParams`
(`search`, `count`, `limit`, `skip`; `none` models an unset key). -/
structure SearchParams where
  search : Option String
  count : Option String
  limit : Option Int
  skip : Option Int

/-- `buildSearchParams`: each field is copied only when truthy, and `limit`
is clamped to `MAX_LIMIT = 100`. -/
def buildSearchParams (sp : SearchParams) : SearchParams :=
  ⟨(match sp.search with
    | some s => if s = "" then none else some s
    | none => none),
   (match sp.count with
    | some c => if c = "" then none else some c
    | none => none),
   (match sp.limit with
    | some l => if l = 0 then none else some (min l 100)
    | none => none),
   (match sp.skip with
    | some k => if k = 0 then none else some k
    | none => none)⟩

/-! ## Fetch transport with retry (`index.ts`, `fetchOpenFDAWithRetry`) -/

/-- Body shape of the fetch-based label endpoint response. -/
structure OpenFDAResponse where
  results : Option (List JsValue)

/-- What one fetch attempt observes: an HTTP response (status, status text,
parsed body) or a network/timeout failure whose exception message is given. -/
inductive FetchAttemptOutcome where
  | status (code : Nat) (statusText : String) (body : OpenFDAResponse)
  | networkFailure (message : String)

/-- One attempt of the loop body: 404 short-circuits to `{ results: [] }`, a
non-ok status throws `HTTP <status>: <statusText>`, an ok status returns the
parsed body, and a network/timeout failure throws its message. -/
def fetchAttempt : FetchAttemptOutcome → Except String OpenFDAResponse
  | .status code statusText body =>
    if code = 404 then .ok ⟨some []⟩
    else if 200 ≤ code ∧ code ≤ 299 then .ok body
    else .error ("HTTP " ++ toString code ++ ": " ++ statusText)
  | .networkFailure message => .error message

/-- The retry loop: run attempts in order; a failure on the last allowed
attempt (`attempt === MAX_RETRIES - 1`) is rethrown, earlier failures retry
after a delay. `outcomes n` is what the `n`-th attempt observes. -/
def retryLoop (outcomes : Nat → FetchAttemptOutcome) :
    Nat → Nat → Except String OpenFDAResponse
  | _, 0 => .error "All retry attempts failed"
  | attempt, remaining + 1 =>
    match fetchAttempt (outcomes attempt) with
    | .ok v => .ok v
    | .error e => if remaining = 0 then .error e else retryLoop outcomes (attempt + 1) remaining

/-- `fetchOpenFDAWithRetry` with `MAX_RETRIES = 3`. -/
def fetchOpenFDAWithRetry (outcomes : Nat → FetchAttemptOutcome) :
    Except String OpenFDAResponse :=
  retryLoop outcomes 0 3

/-! ## Result formatters (`drug-handlers.ts` and the device-handlers module) -/

/-- The drug projection inside `formatDrugAdverseEvent`'s `drugs` map. -/
def formatAdverseDrug (drug : JsValue) : JsValue :=
  .obj [
    ("name", drug.get "medicinalproduct"),
    ("brand_name", idx0 ((drug.get "openfda").get "brand_name")),
    ("generic_name", idx0 ((drug.get "openfda").get "generic_name")),
    ("manufacturer", idx0 ((drug.get "openfda").get "manufacturer_name")),
    ("indication", drug.get "drugindication"),
    ("dosage", drug.get "drugdosagetext")]

/-- The reaction projection inside `formatDrugAdverseEvent`'s `reactions`
map. -/
def formatReaction (reaction : JsValue) : JsValue :=
  .obj [
    ("term", reaction.get "reactionmeddrapt"),
    ("outcome", reaction.get "reactionoutcome")]

/-- `formatDrugAdverseEvent`. -/
def formatDrugAdverseEvent (event : JsValue) : JsValue :=
  .obj [
    ("safety_report_id", event.get "safetyreportid"),
    ("report_date", event.get "receivedate"),
    ("serious", if jsIsStrOne (event.get "serious") then .str "Yes" else .str "No"),
    ("country", event.get "occurcountry"),
    ("patient", .obj [
      ("age", (event.get "patient").get "patientonsetage"),
      ("age_unit", (event.get "patient").get "patientonsetageunit"),
      ("sex", (event.get "patient").get "patientsex")]),
    ("drugs", jsOr (jsMap formatAdverseDrug (jsSlice 3 ((event.get "patient").get "drug"))) (.arr [])),
    ("reactions", jsOr (jsMap formatReaction (jsSlice 3 ((event.get "patient").get "reaction"))) (.arr []))]

/-- `field?.[0]?.substring(0, 200) + '...'` of `formatDrugLabel`: the chain
yields the first entry truncated to 200 characters when it is a string, and
`undefined` when the field or entry is absent; `+ '...'` then coerces and
appends, so an absent field becomes the string `"undefined..."`. -/
def narr200 (v : JsValue) : JsValue :=
  let chained : JsValue :=
    match v with
    | .arr (.str s :: _) => .str (strTake s 200)
    | _ => .undefined
  .str (jsToString chained ++ "...")

/-- `formatDrugLabel`. -/
def formatDrugLabel (label : JsValue) : JsValue :=
  .obj [
    ("id", label.get "id"),
    ("set_id", label.get "set_id"),
    ("version", label.get "version"),
    ("brand_name", idx0 ((label.get "openfda").get "brand_name")),
    ("generic_name", idx0 ((label.get "openfda").get "generic_name")),
    ("manufacturer", idx0 ((label.get "openfda").get "manufacturer_name")),
    ("product_type", idx0 ((label.get "openfda").get "product_type")),
    ("active_ingredients", jsOr (jsSlice 3 (label.get "active_ingredient")) (.arr [])),
    ("indications_and_usage", narr200 (label.get "indications_and_usage")),
    ("warnings", jsOr (jsSlice 2 (label.get "warnings")) (.arr [])),
    ("dosage_and_administration", narr200 (label.get "dosage_and_administration")),
    ("contraindications", jsOr (jsSlice 2 (label.get "contraindications")) (.arr []))]

/-- The packaging projection inside `formatDrugNDC`. -/
def formatPackaging (pkg : JsValue) : JsValue :=
  .obj [
    ("package_ndc", pkg.get "package_ndc"),
    ("description", pkg.get "description")]

/-- `formatDrugNDC`. -/
def formatDrugNDC (ndc : JsValue) : JsValue :=
  .obj [
    ("product_ndc", ndc.get "product_ndc"),
    ("proprietary_name", ndc.get "proprietary_name"),
    ("nonproprietary_name", ndc.get "nonproprietary_name"),
    ("labeler_name", ndc.get "labeler_name"),
    ("dosage_form", ndc.get "dosage_form"),
    ("route", ndc.get "route"),
    ("marketing_category", ndc.get "marketing_category"),
    ("application_number", ndc.get "application_number"),
    ("marketing_start_date", ndc.get "marketing_start_date"),
    ("marketing_end_date", ndc.get "marketing_end_date"),
    ("active_ingredients", jsOr (jsSlice 3 (ndc.get "active_ingredients")) (.arr [])),
    ("packaging", jsOr (jsMap formatPackaging (jsSlice 2 (ndc.get "packaging"))) (.arr []))]

/-- `formatDrugRecall`. -/
def formatDrugRecall (rec : JsValue) : JsValue :=
  .obj [
    ("recall_number", rec.get "recall_number"),
    ("product_description", rec.get "product_description"),
    ("recalling_firm", rec.get "recalling_firm"),
    ("classification", rec.get "classification"),
    ("status", rec.get "status"),
    ("reason_for_recall", rec.get "reason_for_recall"),
    ("recall_initiation_date", rec.get "recall_initiation_date"),
    ("distribution_pattern", rec.get "distribution_pattern"),
    ("product_quantity", rec.get "product_quantity"),
    ("state", rec.get "state"),
    ("country", rec.get "country"),
    ("voluntary_mandated", rec.get "voluntary_mandated")]

/-- The product projection inside `formatDrugsFDA`. -/
def formatFDAProduct (product : JsValue) : JsValue :=
  .obj [
    ("brand_name", product.get "brand_name"),
    ("dosage_form", product.get "dosage_form"),
    ("route", product.get "route"),
    ("marketing_status", product.get "marketing_status"),
    ("active_ingredients", jsOr (jsSlice 2 (product.get "active_ingredients")) (.arr []))]

/-- The submission projection inside `formatDrugsFDA`. -/
def formatFDASubmission (sub : JsValue) : JsValue :=
  .obj [
    ("submission_type", sub.get "submission_type"),
    ("submission_status", sub.get "submission_status"),
    ("submission_status_date", sub.get "submission_status_date")]

/-- `formatDrugsFDA`. -/
def formatDrugsFDA (drug : JsValue) : JsValue :=
  .obj [
    ("application_number", drug.get "application_number"),
    ("sponsor_name", drug.get "sponsor_name"),
    ("brand_name", idx0 ((drug.get "openfda").get "brand_name")),
    ("generic_name", idx0 ((drug.get "openfda").get "generic_name")),
    ("manufacturer", idx0 ((drug.get "openfda").get "manufacturer_name")),
    ("products", jsOr (jsMap formatFDAProduct (jsSlice 2 (drug.get "products"))) (.arr [])),
    ("submissions", jsOr (jsMap formatFDASubmission (jsSlice 2 (drug.get "submissions"))) (.arr []))]

/-- `formatDrugShortage`. -/
def formatDrugShortage (shortage : JsValue) : JsValue :=
  .obj [
    ("product_id", shortage.get "product_id"),
    ("product_name", shortage.get "product_name"),
    ("generic_name", shortage.get "generic_name"),
    ("brand_name", shortage.get "brand_name"),
    ("dosage_form", shortage.get "dosage_form"),
    ("route", shortage.get "route"),
    ("shortage_status", shortage.get "shortage_status"),
    ("shortage_designation", shortage.get "shortage_designation"),
    ("estimated_resupply_date", shortage.get "estimated_resupply_date"),
    ("created_date", shortage.get "created_date"),
    ("last_updated_date", shortage.get "last_updated_date"),
    ("active_ingredients", jsOr (jsSlice 3 (shortage.get "active_ingredients")) (.arr []))]

/-- `formatDevice510K`. -/
def formatDevice510K (item : JsValue) : JsValue :=
  .obj [
    ("k_number", item.get "k_number"),
    ("device_name", item.get "device_name"),
    ("applicant", item.get "applicant"),
    ("contact", item.get "contact"),
    ("product_code", item.get "product_code"),
    ("clearance_type", item.get "clearance_type"),
    ("regulation_number", item.get "regulation_number"),
    ("decision_date", item.get "decision_date"),
    ("decision", item.get "decision"),
    ("statement_or_summary", item.get "statement_or_summary"),
    ("openfda", .obj [
      ("device_name", idx0 ((item.get "openfda").get "device_name")),
      ("device_class", idx0 ((item.get "openfda").get "device_class")),
      ("regulation_number", idx0 ((item.get "openfda").get "regulation_number"))])]

/-- `formatDeviceClassification`. -/
def formatDeviceClassification (item : JsValue) : JsValue :=
  .obj [
    ("product_code", item.get "product_code"),
    ("device_name", item.get "device_name"),
    ("device_class", item.get "device_class"),
    ("medical_specialty", item.get "medical_specialty"),
    ("medical_specialty_description", item.get "medical_specialty_description"),
    ("regulation_number", item.get "regulation_number"),
    ("submission_type_id", item.get "submission_type_id"),
    ("definition", item.get "definition"),
    ("openfda", .obj [
      ("device_name", idx0 ((item.get "openfda").get "device_name")),
      ("device_class", idx0 ((item.get "openfda").get "device_class"))])]

/-- The device projection inside `formatDeviceAdverseEvent`'s map. -/
def formatEventDevice (d : JsValue) : JsValue :=
  .obj [
    ("brand_name", d.get "brand_name"),
    ("generic_name", d.get "generic_name"),
    ("manufacturer_d_name", d.get "manufacturer_d_name"),
    ("model_number", d.get "model_number"),
    ("catalog_number", d.get "catalog_number"),
    ("device_class", idx0 ((d.get "openfda").get "device_class"))]

/-- `formatDeviceAdverseEvent`: `item.device?.map(...)?.[0] || {}` picks the
first mapped device or an empty object. -/
def formatDeviceAdverseEvent (item : JsValue) : JsValue :=
  .obj [
    ("report_number", item.get "report_number"),
    ("event_type", item.get "event_type"),
    ("date_received", item.get "date_received"),
    ("device", jsOr (idx0 (jsMap formatEventDevice (item.get "device"))) (.obj [])),
    ("patient", .obj [
      ("age", (item.get "patient").get "age"),
      ("sex", (item.get "patient").get "sex"),
      ("age_unit", (item.get "patient").get "age_unit")]),
    ("event_description", (idx0 (item.get "mdr_text")).get "text"),
    ("manufacturer_narrative", item.get "manufacturer_narrative")]

/-- `formatDeviceRecall`. -/
def formatDeviceRecall (item : JsValue) : JsValue :=
  .obj [
    ("recall_number", item.get "recall_number"),
    ("product_description", item.get "product_description"),
    ("recalling_firm", item.get "recalling_firm"),
    ("classification", item.get "classification"),
    ("status", item.get "status"),
    ("reason_for_recall", item.get "reason_for_recall"),
    ("recall_initiation_date", item.get "recall_initiation_date"),
    ("distribution_pattern", item.get "distribution_pattern"),
    ("product_quantity", item.get "product_quantity"),
    ("openfda", .obj [
      ("device_name", idx0 ((item.get "openfda").get "device_name")),
      ("device_class", idx0 ((item.get "openfda").get "device_class"))])]

/-! ## Envelope assembly (tool handlers)

A handler's transport call is modelled by an `Except String FDAResp`
parameter: `.ok` is the awaited response, `.error` is the message of the
error the client raised. The serialized JSON text of a payload is modelled
structurally. -/

/-- The aggregate object a search handler serializes on success. -/
structure Envelope where
  search_criteria : JsValue
  total_results : Int
  results_shown : Nat
  itemsKey : String
  items : List JsValue

/-- The text content of a tool payload: a serialized envelope, a serialized
JSON value (getter tools), or a plain message. -/
inductive HandlerText where
  | envelope : Envelope → HandlerText
  | json : JsValue → HandlerText
  | message : String → HandlerText

/-- A tool payload as returned to the dispatcher: the `isError` flag (absent
maps to `false`) and the single text content block. -/
structure HandlerOutput where
  isError : Bool
  text : HandlerText

/-- Success envelope of a drug search handler. -/
def drugEnvelope (args : JsValue) (itemsKey : String) (fmt : JsValue → JsValue)
    (response : FDAResp) : HandlerOutput :=
  let results := response.results.getD []
  ⟨false, .envelope ⟨args, response.total, results.length, itemsKey, results.map fmt⟩⟩

/-- `handleSearchDrugAdverseEvents`: on success the envelope, on a raised
error a caught, `isError`-flagged message payload. -/
def handleSearchDrugAdverseEvents (args : JsValue)
    (fetched : Except String FDAResp) : HandlerOutput :=
  match fetched with
  | .ok response => drugEnvelope args "adverse_events" formatDrugAdverseEvent response
  | .error e => ⟨true, .message ("Drug adverse events search error: " ++ e)⟩

/-- `handleSearchDrugLabels`. -/
def handleSearchDrugLabels (args : JsValue)
    (fetched : Except String FDAResp) : HandlerOutput :=
  match fetched with
  | .ok response => drugEnvelope args "drug_labels" formatDrugLabel response
  | .error e => ⟨true, .message ("Drug labels search error: " ++ e)⟩

/-- `handleSearchDrugNDC`. -/
def handleSearchDrugNDC (args : JsValue)
    (fetched : Except String FDAResp) : HandlerOutput :=
  match fetched with
  | .ok response => drugEnvelope args "ndc_entries" formatDrugNDC response
  | .error e => ⟨true, .message ("NDC directory search error: " ++ e)⟩

/-- `handleSearchDrugRecalls`. -/
def handleSearchDrugRecalls (args : JsValue)
    (fetched : Except String FDAResp) : HandlerOutput :=
  match fetched with
  | .ok response => drugEnvelope args "drug_recalls" formatDrugRecall response
  | .error e => ⟨true, .message ("Drug recalls search error: " ++ e)⟩

/-- `handleSearchDrugsFDA`. -/
def handleSearchDrugsFDA (args : JsValue)
    (fetched : Except String FDAResp) : HandlerOutput :=
  match fetched with
  | .ok response => drugEnvelope args "fda_approved_drugs" formatDrugsFDA response
  | .error e => ⟨true, .message ("Drugs@FDA search error: " ++ e)⟩

/-- `handleSearchDrugShortages`. -/
def handleSearchDrugShortages (args : JsValue)
    (fetched : Except String FDAResp) : HandlerOutput :=
  match fetched with
  | .ok response => drugEnvelope args "drug_shortages" formatDrugShortage response
  | .error e => ⟨true, .message ("Drug shortages search error: " ++ e)⟩

/-- `handleSearchDevice510K`: on a raised error the catch block rethrows
`new Error('Device 510(k) search failed: ...')`, so the exception leaves the
handler (modelled by `Except.error`). -/
def handleSearchDevice510K (args : JsValue)
    (fetched : Except String FDAResp) : Except String HandlerOutput :=
  match fetched with
  | .ok response =>
    .ok (drugEnvelope args "device_510k_clearances" formatDevice510K response)
  | .error e => .error ("Device 510(k) search failed: " ++ e)

/-- `handleSearchDeviceClassifications`: rethrows on error like the other
device handlers. -/
def handleSearchDeviceClassifications (args : JsValue)
    (fetched : Except String FDAResp) : Except String HandlerOutput :=
  match fetched with
  | .ok response =>
    .ok (drugEnvelope args "device_classifications" formatDeviceClassification response)
  | .error e => .error ("Device classification search failed: " ++ e)

/-- `handleSearchDeviceAdverseEvents`: rethrows on error. -/
def handleSearchDeviceAdverseEvents (args : JsValue)
    (fetched : Except String FDAResp) : Except String HandlerOutput :=
  match fetched with
  | .ok response =>
    .ok (drugEnvelope args "device_adverse_events" formatDeviceAdverseEvent response)
  | .error e => .error ("Device adverse event search failed: " ++ e)

/-- `handleSearchDeviceRecalls`: rethrows on error. -/
def handleSearchDeviceRecalls (args : JsValue)
    (fetched : Except String FDAResp) : Except String HandlerOutput :=
  match fetched with
  | .ok response =>
    .ok (drugEnvelope args "device_recalls" formatDeviceRecall response)
  | .error e => .error ("Device recall search failed: " ++ e)

/-- The per-record `DrugInfo` projection of the `get_drug_indications`
tool. -/
def drugInfoOf (rec : JsValue) : JsValue :=
  .obj [
    ("brandNames", jsOr ((rec.get "openfda").get "brand_name") (.arr [])),
    ("genericNames", jsOr ((rec.get "openfda").get "generic_name") (.arr [])),
    ("manufacturer", jsOr ((rec.get "openfda").get "manufacturer_name") (.arr [])),
    ("indications", jsOr (rec.get "indications_and_usage") (.arr [])),
    ("ndcCodes", jsOr ((rec.get "openfda").get "product_ndc") (.arr []))]

/-- Body of the `get_drug_indications` getter tool after the fetch resolved:
an empty (or absent) result list yields the placeholder message, otherwise
the serialized `DrugInfo` list; a raised error is caught into a message
payload (the `${error}` interpolation stringifies the `Error` object). -/
def getDrugIndicationsResult (fetched : Except String OpenFDAResponse) : HandlerOutput :=
  match fetched with
  | .ok data =>
    let rs := data.results.getD []
    if rs.length = 0 then
      ⟨false, .message "No FDA-approved indications found for the specified criteria."⟩
    else ⟨false, .json (.arr (rs.map drugInfoOf))⟩
  | .error e => ⟨false, .message ("Error fetching drug indications: Error: " ++ e)⟩

/-! ## Device request-parameter assembly (`{ search: searchQuery, ...args }`)

The device handlers build the client argument by spreading the raw argument
bag after the freshly built query, so an argument key `search` overrides the
built query. -/

/-- The object `handleSearchDevice510K` passes to
`fdaAPIClient.searchDevice510K`. -/
def device510KRequestParams (args : JsValue) : JsValue :=
  jsSpread (.obj [("search", .str (buildDevice510KQuery args))]) args

/-- The object `handleSearchDeviceClassifications` passes to
`fdaAPIClient.searchDeviceClassifications`. -/
def deviceClassificationRequestParams (args : JsValue) : JsValue :=
  jsSpread (.obj [("search", .str (buildDeviceClassificationQuery args))]) args

/-! ## Helper lemmas -/

lemma dedupPreserve_single (a : String) : dedupPreserve [a] = [a] := by
  simp [dedupPreserve, pushUnique]

lemma dedupPreserve_pair (a b : String) :
    dedupPreserve [a, b] = if b = a then [a] else [a, b] := by
  by_cases hb : b = a <;> simp [dedupPreserve, pushUnique, hb]

/-- Deduplicating a trimmed-input/derived-candidate pair leaves the trimmed
input alone or followed by one distinct candidate. -/
lemma dedup_pair_shape (a d : String) :
    (dedupPreserve [a, d]).take 3 = [a] ∨
      ∃ e, e ≠ a ∧ (dedupPreserve [a, d]).take 3 = [a, e] := by
  by_cases hb : d = a
  · left
    simp [dedupPreserve_pair, hb]
  · right
    exact ⟨d, hb, by simp [dedupPreserve_pair, hb]⟩

/-- For a non-empty input, `normalizeNDC` yields the trimmed input alone or
the trimmed input followed by one distinct derived candidate. -/
lemma normalizeNDC_structure (s : String) (h : s ≠ "") :
    normalizeNDC s = [jsTrim s] ∨
      ∃ d, d ≠ jsTrim s ∧ normalizeNDC s = [jsTrim s, d] := by
  unfold normalizeNDC
  rw [if_neg h]
  by_cases h1 : jsContainsChar (jsTrim s) '-' = true
  · by_cases h2 : (stripNonDigits (jsTrim s)).length ≥ 9
    · simpa [h1, h2] using dedup_pair_shape (jsTrim s) (stripNonDigits (jsTrim s))
    · left
      simp [h1, h2, dedupPreserve_single]
  · by_cases h2 : (stripNonDigits (jsTrim s)).length = 10
    · simpa [h1, h2] using dedup_pair_shape (jsTrim s) (resegment (stripNonDigits (jsTrim s)))
    · by_cases h3 : (stripNonDigits (jsTrim s)).length = 11
      · simpa [h1, h2, h3] using
          dedup_pair_shape (jsTrim s) (resegment (stripNonDigits (jsTrim s)))
      · left
        simp [h1, h2, h3, dedupPreserve_single]

lemma jsToString_undefined : jsToString .undefined = "undefined" := by
  simp [jsToString]

lemma jsToString_str (s : String) : jsToString (.str s) = s := by
  simp [jsToString]

lemma narr200_undefined : narr200 JsValue.undefined = .str "undefined..." := by
  have h : ("undefined" ++ "..." : String) = "undefined..." := by decide
  simp [narr200, jsToString_undefined, h]

lemma narr200_str (s : String) (rest : List JsValue) :
    narr200 (.arr (.str s :: rest)) = .str (strTake s 200 ++ "...") := by
  simp [narr200, jsToString_str]

/-! ## Claim theorems -/

/-- Claim C2 (counterexample): with every recognized field absent, the
510(k) query builder returns the empty string, not a non-empty wildcard
token — the claim that every query builder returns a "match all" token and
never an empty string fails on the device builders. -/
theorem device510k_empty_criteria_empty_string :
    buildDevice510KQuery (.obj []) = "" := rfl

/-- Claim C2 (amended): with every recognized field absent, the six drug
query builders return `'*'` and `buildSearch` returns `'*:*'`, while the
four device query builders return the empty string. -/
theorem empty_criteria_query_values :
    buildDrugAdverseEventQuery (.obj []) = "*" ∧
    buildDrugLabelQuery (.obj []) = "*" ∧
    buildDrugNDCQuery (.obj []) = "*" ∧
    buildDrugRecallQuery (.obj []) = "*" ∧
    buildDrugsFDAQuery (.obj []) = "*" ∧
    buildDrugShortageQuery (.obj []) = "*" ∧
    buildSearch none none none none none false = "*:*" ∧
    buildDevice510KQuery (.obj []) = "" ∧
    buildDeviceClassificationQuery (.obj []) = "" ∧
    buildDeviceAdverseEventQuery (.obj []) = "" ∧
    buildDeviceRecallQuery (.obj []) = "" :=
  ⟨rfl, rfl, rfl, rfl, rfl, rfl, rfl, rfl, rfl, rfl, rfl⟩

/-- Claim C4 (counterexample): a first narrative entry of length at most 200
(`"Take once daily"`, 15 characters) is not returned unmodified — the
formatter still appends the ellipsis marker. -/
theorem short_narrative_gains_ellipsis :
    (formatDrugLabel (.obj [("indications_and_usage",
        .arr [.str "Take once daily"])])).get "indications_and_usage" =
      .str "Take once daily..." ∧
    "Take once daily..." ≠ "Take once daily" ∧
    ("Take once daily").length ≤ 200 := by
  have h : strTake "Take once daily" 200 ++ "..." = "Take once daily..." := by decide
  refine ⟨?_, by decide, by decide⟩
  simp [formatDrugLabel, JsValue.get, lookupField, narr200_str, h]

/-- Claim C4 (amended): both narrative fields of `formatDrugLabel` always
yield the first entry cut to its first 200 characters with `'...'` appended,
for entries of any length; an absent field yields the string
`"undefined..."`. -/
theorem label_narrative_always_ellipsis (s : String) :
    (formatDrugLabel (.obj [("indications_and_usage", .arr [.str s])])).get
        "indications_and_usage" = .str (strTake s 200 ++ "...") ∧
    (formatDrugLabel (.obj [("dosage_and_administration", .arr [.str s])])).get
        "dosage_and_administration" = .str (strTake s 200 ++ "...") ∧
    (formatDrugLabel (.obj [])).get "indications_and_usage" = .str "undefined..." := by
  refine ⟨?_, ?_, ?_⟩ <;>
    simp [formatDrugLabel, JsValue.get, lookupField, narr200_str, narr200_undefined]

/-- Claim C5 (counterexample): on the empty upstream record,
`formatDrugLabel`'s `indications_and_usage` output is the spurious non-empty
string `"undefined..."`, not an empty or absent value. -/
theorem label_empty_record_spurious_undefined :
    (formatDrugLabel (.obj [])).get "indications_and_usage" = .str "undefined..." ∧
    "undefined..." ≠ "" := by
  refine ⟨?_, by decide⟩
  simp [formatDrugLabel, JsValue.get, lookupField, narr200_undefined]

/-- Claim C5 (amended): on an upstream record equal to the empty object the
three formatters return total, well-formed summaries whose fields are empty
or `undefined` — except that `formatDrugLabel`'s two narrative fields are
the spurious string `"undefined..."` and `formatDrugAdverseEvent`'s
`serious` field is the derived default `"No"`. -/
theorem formatters_on_empty_record :
    formatDrugAdverseEvent (.obj []) = .obj [
      ("safety_report_id", .undefined),
      ("report_date", .undefined),
      ("serious", .str "No"),
      ("country", .undefined),
      ("patient", .obj [("age", .undefined), ("age_unit", .undefined), ("sex", .undefined)]),
      ("drugs", .arr []),
      ("reactions", .arr [])] ∧
    formatDrugLabel (.obj []) = .obj [
      ("id", .undefined),
      ("set_id", .undefined),
      ("version", .undefined),
      ("brand_name", .undefined),
      ("generic_name", .undefined),
      ("manufacturer", .undefined),
      ("product_type", .undefined),
      ("active_ingredients", .arr []),
      ("indications_and_usage", .str "undefined..."),
      ("warnings", .arr []),
      ("dosage_and_administration", .str "undefined..."),
      ("contraindications", .arr [])] ∧
    formatDeviceAdverseEvent (.obj []) = .obj [
      ("report_number", .undefined),
      ("event_type", .undefined),
      ("date_received", .undefined),
      ("device", .obj []),
      ("patient", .obj [("age", .undefined), ("sex", .undefined), ("age_unit", .undefined)]),
      ("event_description", .undefined),
      ("manufacturer_narrative", .undefined)] := by
  refine ⟨rfl, ?_, rfl⟩
  simp [formatDrugLabel, JsValue.get, lookupField, narr200_undefined, jsOr, jsSlice,
    JsValue.isTruthy, JsValue.isFalsy, idx0]

/-- Claim C3 (counterexample): when the transport raises, the 510(k) handler
does not return a text payload — its catch block rethrows a wrapped error,
which propagates out of the handler. -/
theorem device510k_error_propagates :
    handleSearchDevice510K (.obj [])
        (.error "Network error: Unable to connect to FDA API") =
      .error "Device 510(k) search failed: Network error: Unable to connect to FDA API" := rfl

/-- Claim C3 (amended): for every argument bag and every raised transport
error, the six drug handlers catch the error and return an `isError` text
payload naming the failed operation and the cause, while the four device
handlers rethrow a wrapped error that propagates out of the handler. -/
theorem handler_error_branches :
    (∀ (a : JsValue) (e : String),
      handleSearchDrugAdverseEvents a (.error e) =
        ⟨true, .message ("Drug adverse events search error: " ++ e)⟩) ∧
    (∀ (a : JsValue) (e : String),
      handleSearchDrugLabels a (.error e) =
        ⟨true, .message ("Drug labels search error: " ++ e)⟩) ∧
    (∀ (a : JsValue) (e : String),
      handleSearchDrugNDC a (.error e) =
        ⟨true, .message ("NDC directory search error: " ++ e)⟩) ∧
    (∀ (a : JsValue) (e : String),
      handleSearchDrugRecalls a (.error e) =
        ⟨true, .message ("Drug recalls search error: " ++ e)⟩) ∧
    (∀ (a : JsValue) (e : String),
      handleSearchDrugsFDA a (.error e) =
        ⟨true, .message ("Drugs@FDA search error: " ++ e)⟩) ∧
    (∀ (a : JsValue) (e : String),
      handleSearchDrugShortages a (.error e) =
        ⟨true, .message ("Drug shortages search error: " ++ e)⟩) ∧
    (∀ (a : JsValue) (e : String),
      handleSearchDevice510K a (.error e) =
        .error ("Device 510(k) search failed: " ++ e)) ∧
    (∀ (a : JsValue) (e : String),
      handleSearchDeviceClassifications a (.error e) =
        .error ("Device classification search failed: " ++ e)) ∧
    (∀ (a : JsValue) (e : String),
      handleSearchDeviceAdverseEvents a (.error e) =
        .error ("Device adverse event search failed: " ++ e)) ∧
    (∀ (a : JsValue) (e : String),
      handleSearchDeviceRecalls a (.error e) =
        .error ("Device recall search failed: " ++ e)) :=
  ⟨fun _ _ => rfl, fun _ _ => rfl, fun _ _ => rfl, fun _ _ => rfl, fun _ _ => rfl,
   fun _ _ => rfl, fun _ _ => rfl, fun _ _ => rfl, fun _ _ => rfl, fun _ _ => rfl⟩

/-- Claim C1 (counterexample): a 404 on the axios transport is raised to the
handler as the error `No results found for the given search criteria`, and
the drug adverse-events tool therefore produces an `isError` message
payload, not a successful empty result. -/
theorem axios_notFound_raises_to_handler :
    clientGetOutcome true (.error (.response 404 none "Request failed with status code 404")) =
      .error "No results found for the given search criteria" ∧
    handleSearchDrugAdverseEvents (.obj [])
        (clientGetOutcome true (.error (.response 404 none "Request failed with status code 404"))) =
      ⟨true, .message "Drug adverse events search error: No results found for the given search criteria"⟩ :=
  ⟨rfl, rfl⟩

/-- Claim C1 (amended): 404 handling splits by transport: the fetch-based
retry loop used by the getter tools short-circuits a first-attempt 404 into
the successful empty body `{ results: [] }` (and the getter then emits its
placeholder message), whereas the axios client's error interceptor turns a
404 into a raised error, which the drug search handlers catch into an
`isError` payload. -/
theorem notFound_split_across_transports :
    (∀ (outcomes : Nat → FetchAttemptOutcome) (statusText : String) (body : OpenFDAResponse),
      outcomes 0 = .status 404 statusText body →
      fetchOpenFDAWithRetry outcomes = .ok ⟨some []⟩) ∧
    getDrugIndicationsResult (.ok ⟨some []⟩) =
      ⟨false, .message "No FDA-approved indications found for the specified criteria."⟩ ∧
    (∀ (hasAPIKey : Bool) (dataMessage : Option String) (message : String),
      clientGetOutcome hasAPIKey (.error (.response 404 dataMessage message)) =
        .error "No results found for the given search criteria") ∧
    (∀ (a : JsValue),
      handleSearchDrugAdverseEvents a
          (.error "No results found for the given search criteria") =
        ⟨true, .message "Drug adverse events search error: No results found for the given search criteria"⟩) := by
  refine ⟨?_, rfl, ?_, fun _ => rfl⟩
  · intro outcomes statusText body h
    simp [fetchOpenFDAWithRetry, retryLoop, h, fetchAttempt]
  · intro hasAPIKey dataMessage message
    simp [clientGetOutcome, handleAPIError]

/-- Claim C1 (witness for the amended theorem). -/
theorem notFound_split_across_transports_witness :
    fetchOpenFDAWithRetry (fun _ => .status 404 "Not Found" ⟨none⟩) = .ok ⟨some []⟩ ∧
    clientGetOutcome true (.error (.response 404 none "Request failed with status code 404")) =
      .error "No results found for the given search criteria" :=
  ⟨notFound_split_across_transports.1 (fun _ => .status 404 "Not Found" ⟨none⟩)
      "Not Found" ⟨none⟩ rfl,
   notFound_split_across_transports.2.2.1 true none "Request failed with status code 404"⟩

/-- Claim C6 (counterexample): for the empty identifier input the code
returns the empty candidate list, so the first candidate is not the trimmed
raw input. -/
theorem normalizeNDC_empty_input_no_head :
    (normalizeNDC "").head? ≠ some (jsTrim "") := by
  simp [normalizeNDC]

/-- Claim C6 (amended): for every non-empty identifier input, `normalizeNDC`
returns an ordered, duplicate-free list of at most 3 candidates whose first
element is the trimmed raw input; the empty input yields the empty list; the
11-digit separator-free input `"12345678901"` yields exactly
`["12345678901", "12345-6789-01"]`. -/
theorem normalizeNDC_shape :
    (∀ s : String, s ≠ "" →
      (normalizeNDC s).head? = some (jsTrim s) ∧
      (normalizeNDC s).Nodup ∧
      (normalizeNDC s).length ≤ 3) ∧
    normalizeNDC "" = [] ∧
    normalizeNDC "12345678901" = ["12345678901", "12345-6789-01"] := by
  refine ⟨?_, by simp [normalizeNDC], by decide⟩
  intro s h
  rcases normalizeNDC_structure s h with h1 | ⟨d, hd, h2⟩
  · simp [h1]
  · simp [h2, hd, Ne.symm hd]

/-- Claim C6 (witness for the amended theorem). -/
theorem normalizeNDC_shape_witness :
    (normalizeNDC "12345678901").head? = some (jsTrim "12345678901") ∧
    (normalizeNDC "12345678901").Nodup ∧
    (normalizeNDC "12345678901").length ≤ 3 :=
  normalizeNDC_shape.1 "12345678901" (by decide)

/-- Claim C7 (confirmed): for every field name and every optional pair of
date bounds (a bound being present when a non-empty string is supplied),
both date-range builders yield exactly the closed range when both bounds are
present, the open-upper range when only `from` is, the open-lower range when
only `to` is, and no clause (`null` / the empty string respectively) when
neither is. -/
theorem dateRange_four_outcomes (field fromDate toDate : String) :
    (fromDate ≠ "" → toDate ≠ "" →
      buildDateQuery field (.str fromDate) (.str toDate) =
        some (field ++ ":[" ++ fromDate ++ " TO " ++ toDate ++ "]") ∧
      buildDateRangeQuery field (.str fromDate) (.str toDate) =
        field ++ ":[" ++ fromDate ++ " TO " ++ toDate ++ "]") ∧
    (fromDate ≠ "" →
      buildDateQuery field (.str fromDate) .undefined =
        some (field ++ ":[" ++ fromDate ++ " TO *]") ∧
      buildDateRangeQuery field (.str fromDate) .undefined =
        field ++ ":[" ++ fromDate ++ " TO *]") ∧
    (toDate ≠ "" →
      buildDateQuery field .undefined (.str toDate) =
        some (field ++ ":[* TO " ++ toDate ++ "]") ∧
      buildDateRangeQuery field .undefined (.str toDate) =
        field ++ ":[* TO " ++ toDate ++ "]") ∧
    (buildDateQuery field .undefined .undefined = none ∧
      buildDateRangeQuery field .undefined .undefined = "") := by
  refine ⟨?_, ?_, ?_, ?_⟩
  · intro h1 h2
    constructor <;>
      simp [buildDateQuery, buildDateRangeQuery, JsValue.isTruthy, JsValue.isFalsy,
        jsToString, h1, h2]
  · intro h1
    constructor <;>
      simp [buildDateQuery, buildDateRangeQuery, JsValue.isTruthy, JsValue.isFalsy,
        jsToString, h1]
  · intro h2
    constructor <;>
      simp [buildDateQuery, buildDateRangeQuery, JsValue.isTruthy, JsValue.isFalsy,
        jsToString, h2]
  · constructor <;>
      simp [buildDateQuery, buildDateRangeQuery, JsValue.isTruthy, JsValue.isFalsy]

/-- Claim C7 (witness). -/
theorem dateRange_four_outcomes_witness :
    buildDateQuery "receivedate" (.str "20230101") (.str "20231231") =
      some "receivedate:[20230101 TO 20231231]" ∧
    buildDateRangeQuery "receivedate" (.str "20230101") (.str "20231231") =
      "receivedate:[20230101 TO 20231231]" := by
  have h := (dateRange_four_outcomes "receivedate" "20230101" "20231231").1
    (by decide) (by decide)
  refine ⟨?_, ?_⟩
  · rw [h.1]
    decide
  · rw [h.2]
    decide

/-- Claim C8 (confirmed): when a non-empty NDC is supplied and no drug name,
manufacturer, dosage form or route is, `buildSearch` returns exactly the
OR-group of the normalized NDC candidates scoped to `openfda.product_ndc`,
with no AND-joined additions. -/
theorem ndc_only_search_returns_or_group (ndc : String) (exact : Bool) (h : ndc ≠ "") :
    buildSearch none none none none (some ndc) exact =
      "(" ++ joinSep " OR "
        ((normalizeNDC ndc).map
          (fun format => "openfda.product_ndc:\"" ++ format ++ "\"")) ++ ")" := by
  have hpos : 0 < (normalizeNDC ndc).length := by
    rcases normalizeNDC_structure ndc h with h1 | ⟨d, _, h2⟩
    · simp [h1]
    · simp [h2]
  simp [buildSearch, strTruthy, strVal, h, hpos]

/-- Claim C8 (witness). -/
theorem ndc_only_search_returns_or_group_witness :
    buildSearch none none none none (some "12345678901") false =
      "(" ++ joinSep " OR "
        ((normalizeNDC "12345678901").map
          (fun format => "openfda.product_ndc:\"" ++ format ++ "\"")) ++ ")" :=
  ndc_only_search_returns_or_group "12345678901" false (by decide)

/-- Claim C9 (confirmed): because the device handlers spread the raw
argument bag after the built query (`{ search: searchQuery, ...args }`), an
argument bag that carries a `search` key sends the caller-supplied value to
the transport client, not the query built from the structured criteria. -/
theorem search_key_overrides_built_query (fields : List (String × JsValue)) (v : JsValue)
    (hk : hasKeyList fields "search" = true)
    (hv : lookupField fields "search" = v) :
    (device510KRequestParams (.obj fields)).get "search" = v ∧
    (deviceClassificationRequestParams (.obj fields)).get "search" = v := by
  constructor <;>
    simp [device510KRequestParams, deviceClassificationRequestParams, jsSpread,
      JsValue.get, lookupField, hk, hv]

/-- Claim C9 (witness): a caller-supplied `search` wins over the query built
from `device_name`. -/
theorem search_key_overrides_built_query_witness :
    (device510KRequestParams (.obj [("search", .str "k_number:\"K123456\""),
        ("device_name", .str "Pump")])).get "search" = .str "k_number:\"K123456\"" ∧
    (deviceClassificationRequestParams (.obj [("search", .str "k_number:\"K123456\""),
        ("device_name", .str "Pump")])).get "search" = .str "k_number:\"K123456\"" :=
  search_key_overrides_built_query
    [("search", .str "k_number:\"K123456\""), ("device_name", .str "Pump")]
    (.str "k_number:\"K123456\"") rfl rfl

/-- Claim C10 (confirmed): the getter tools' upstream limit is
`max(1, min(limit, 10))` for every caller-supplied (necessarily non-zero,
since the zod schema requires 1–10) limit, defaults to 3 when unset, and
never exceeds 10 — while the search-tool family's `buildSearchParams` passes
limits up to 100 through. -/
theorem getter_limit_clamp :
    (∀ v : Int, v ≠ 0 → getterLimitParam (some v) = max 1 (min v 10)) ∧
    getterLimitParam none = 3 ∧
    (∀ o : Option Int, getterLimitParam o ≤ 10) ∧
    (buildSearchParams ⟨none, none, some 100, none⟩).limit = some 100 := by
  refine ⟨?_, by decide, ?_, by decide⟩
  · intro v hv
    simp [getterLimitParam, hv]
  · intro o
    unfold getterLimitParam
    exact max_le (by norm_num) (min_le_right _ _)

/-- Claim C10 (witness). -/
theorem getter_limit_clamp_witness :
    getterLimitParam (some 7) = max 1 (min 7 10) ∧
    getterLimitParam (some 50) = max 1 (min 50 10) :=
  ⟨getter_limit_clamp.1 7 (by decide), getter_limit_clamp.1 50 (by decide)⟩

end OpenFDA
